import Mathlib

/-!
Verification development for the `consuladapter` repository.

Part 1 embeds the pure configuration-file generation code
(`src/configfile.go` and `src/consulrunner/configfile.go`) and the
port/address arithmetic of `src/clusterrunner.go`.

Part 2 models the Session lifecycle state machine.  The file
`session.go` is not part of the source tree here (only its tests in
`src/session_test.go`, its callers in `src/clusterrunner.go`, and the
specification describe it), so the Session component is modelled from
the spec, as indicated on each of its definitions.

Modelling conventions:
* Go `int` values (ports, counts, indices) that are never negative in
  the code are embedded as `Nat`; no arithmetic here can overflow a
  64-bit integer for the port ranges the code asserts
  (`0 < startingPort < 2^16`), so no wraparound is modelled.
* A Go `map[string]int` literal is embedded as an association list in
  the literal's textual order, with a lookup helper.
* Backend-assigned opaque session-ID strings are embedded as `Nat`
  handles; the Go empty string "" (no lease) is `Option.none`.
-/

namespace consuladapter

/-- Port-offset constants from `src/configfile.go` (an `iota` block):
dns, http, client RPC, serf LAN, serf WAN, server RPC, and the length. -/
def portOffsetDNS : Nat := 0

/-- Offset of the http port. -/
def PortOffsetHTTP : Nat := 1

/-- Offset of the client RPC port. -/
def portOffsetClientRPC : Nat := 2

/-- Offset of the serf LAN port. -/
def portOffsetSerfLAN : Nat := 3

/-- Offset of the serf WAN port. -/
def portOffsetSerfWAN : Nat := 4

/-- Offset of the server RPC port. -/
def portOffsetServerRPC : Nat := 5

/-- Number of ports allocated per node. -/
def PortOffsetLength : Nat := 6

/-- Default log level constant from `src/configfile.go`. -/
def defaultLogLevel : String := "info"

/-- Default protocol version constant from `src/configfile.go`. -/
def defaultProtocolVersion : Nat := 2

/-- The `configFile` struct of `src/configfile.go`.  `Ports` is the Go
`map[string]int`, embedded as an association list in literal order. -/
structure configFile where
  BootstrapExpect : Nat
  Datacenter : String
  DataDir : String
  LogLevel : String
  NodeName : String
  Server : Bool
  Ports : List (String × Nat)
  BindAddr : String
  ProtocolVersion : Nat
  StartJoin : List String
  RetryJoin : List String
  RejoinAfterLeave : Bool
  DisableRemoteExec : Bool
  DisableUpdateCheck : Bool
deriving DecidableEq

/-- Lookup of one named port in a config file's port map. -/
def configFile.port (cf : configFile) (k : String) : Option Nat :=
  (cf.Ports.find? (fun p => p.1 = k)).map (fun p => p.2)

/-- The join-address list built by `newConfigFile`
(`src/configfile.go` lines 59-62): for each node `i` of the cluster,
the string "127.0.0.1:" followed by that node's serf-LAN port. -/
def joinAddresses (clusterStartingPort : Nat) (numNodes : Nat) : List String :=
  (List.range numNodes).map
    (fun i => "127.0.0.1:" ++ toString (clusterStartingPort + i * PortOffsetLength + portOffsetSerfLAN))

/-- `newConfigFile` from `src/configfile.go` lines 42-79. -/
def newConfigFile (dataDir : String) (nodeName : String)
    (clusterStartingPort : Nat) (index : Nat) (numNodes : Nat) : configFile :=
  let startingPort := clusterStartingPort + PortOffsetLength * index
  { BootstrapExpect := numNodes
    Datacenter := ""
    DataDir := dataDir
    LogLevel := defaultLogLevel
    NodeName := nodeName
    Server := true
    Ports :=
      [ ("dns", startingPort + portOffsetDNS)
      , ("http", startingPort + PortOffsetHTTP)
      , ("rpc", startingPort + portOffsetClientRPC)
      , ("serf_lan", startingPort + portOffsetSerfLAN)
      , ("serf_wan", startingPort + portOffsetSerfWAN)
      , ("server", startingPort + portOffsetServerRPC) ]
    BindAddr := "127.0.0.1"
    ProtocolVersion := defaultProtocolVersion
    StartJoin := joinAddresses clusterStartingPort numNodes
    RetryJoin := joinAddresses clusterStartingPort numNodes
    RejoinAfterLeave := true
    DisableRemoteExec := true
    DisableUpdateCheck := true }

/-- The per-node URL list built by `ClusterRunner.ConsulCluster`
(`src/clusterrunner.go` lines 148-151): node `i` gets
`scheme://127.0.0.1:` followed by its http port. -/
def ClusterRunner.consulClusterURLs (scheme : String)
    (startingPort : Nat) (numNodes : Nat) : List String :=
  (List.range numNodes).map
    (fun i => scheme ++ "://127.0.0.1:" ++ toString (startingPort + i * PortOffsetLength + PortOffsetHTTP))

/-- `ClusterRunner.ConsulCluster` (`src/clusterrunner.go` lines 147-154):
the comma-joined URL list. -/
def ClusterRunner.ConsulCluster (scheme : String)
    (startingPort : Nat) (numNodes : Nat) : String :=
  String.intercalate "," (ClusterRunner.consulClusterURLs scheme startingPort numNodes)

/-- `ClusterRunner.Address` (`src/clusterrunner.go` lines 156-158). -/
def ClusterRunner.Address (startingPort : Nat) : String :=
  "127.0.0.1:" ++ toString (startingPort + PortOffsetHTTP)

end consuladapter

namespace consulrunner

/-- The `configFile` struct of `src/consulrunner/configfile.go`: the
same fields as `consuladapter.configFile` plus `SessionTTL`. -/
structure configFile where
  BootstrapExpect : Nat
  Datacenter : String
  DataDir : String
  LogLevel : String
  NodeName : String
  Server : Bool
  Ports : List (String × Nat)
  BindAddr : String
  ProtocolVersion : Nat
  StartJoin : List String
  RetryJoin : List String
  RejoinAfterLeave : Bool
  DisableRemoteExec : Bool
  DisableUpdateCheck : Bool
  SessionTTL : String
deriving DecidableEq

/-- Projection keeping only the fields `consulrunner.configFile` shares
with `consuladapter.configFile`. -/
def configFile.shared (cf : configFile) : consuladapter.configFile :=
  { BootstrapExpect := cf.BootstrapExpect
    Datacenter := cf.Datacenter
    DataDir := cf.DataDir
    LogLevel := cf.LogLevel
    NodeName := cf.NodeName
    Server := cf.Server
    Ports := cf.Ports
    BindAddr := cf.BindAddr
    ProtocolVersion := cf.ProtocolVersion
    StartJoin := cf.StartJoin
    RetryJoin := cf.RetryJoin
    RejoinAfterLeave := cf.RejoinAfterLeave
    DisableRemoteExec := cf.DisableRemoteExec
    DisableUpdateCheck := cf.DisableUpdateCheck }

/-- `newConfigFile` from `src/consulrunner/configfile.go` lines 44-83.
The extra argument is a Go `time.Duration` (an integer nanosecond
count, embedded as `Int`); the Go standard library rendering
`time.Duration.String()` is outside this repository and is abstracted
as the function argument `durationString`. -/
def newConfigFile (durationString : Int → String)
    (dataDir : String) (nodeName : String)
    (clusterStartingPort : Nat) (index : Nat) (numNodes : Nat)
    (sessionTTL : Int) : configFile :=
  let startingPort := clusterStartingPort + consuladapter.PortOffsetLength * index
  { BootstrapExpect := numNodes
    Datacenter := ""
    DataDir := dataDir
    LogLevel := consuladapter.defaultLogLevel
    NodeName := nodeName
    Server := true
    Ports :=
      [ ("dns", startingPort + consuladapter.portOffsetDNS)
      , ("http", startingPort + consuladapter.PortOffsetHTTP)
      , ("rpc", startingPort + consuladapter.portOffsetClientRPC)
      , ("serf_lan", startingPort + consuladapter.portOffsetSerfLAN)
      , ("serf_wan", startingPort + consuladapter.portOffsetSerfWAN)
      , ("server", startingPort + consuladapter.portOffsetServerRPC) ]
    BindAddr := "127.0.0.1"
    ProtocolVersion := consuladapter.defaultProtocolVersion
    StartJoin := consuladapter.joinAddresses clusterStartingPort numNodes
    RetryJoin := consuladapter.joinAddresses clusterStartingPort numNodes
    RejoinAfterLeave := true
    DisableRemoteExec := true
    DisableUpdateCheck := true
    SessionTTL := durationString sessionTTL }

end consulrunner

/-- C8: for every cluster starting port `p`, node index `i` and node
count `n`, `newConfigFile` assigns node `i` the six consecutive ports
`p + 6*i` through `p + 6*i + 5` in the order dns, http, rpc, serf_lan,
serf_wan, server; sets `StartJoin` and `RetryJoin` to the same list of
`n` addresses whose `j`-th entry is "127.0.0.1:" followed by
`p + 6*j + 3` (node `j`'s serf-LAN port); and sets `BootstrapExpect`
to `n`. -/
theorem newConfigFile_ports_join_bootstrap
    (dataDir nodeName : String) (p i n : Nat) :
    (consuladapter.newConfigFile dataDir nodeName p i n).Ports =
      [ ("dns", p + 6 * i), ("http", p + 6 * i + 1), ("rpc", p + 6 * i + 2)
      , ("serf_lan", p + 6 * i + 3), ("serf_wan", p + 6 * i + 4), ("server", p + 6 * i + 5) ] ∧
    (consuladapter.newConfigFile dataDir nodeName p i n).StartJoin =
      (List.range n).map (fun j => "127.0.0.1:" ++ toString (p + 6 * j + 3)) ∧
    (consuladapter.newConfigFile dataDir nodeName p i n).RetryJoin =
      (consuladapter.newConfigFile dataDir nodeName p i n).StartJoin ∧
    (consuladapter.newConfigFile dataDir nodeName p i n).BootstrapExpect = n := by
  refine ⟨?_, ?_, rfl, rfl⟩
  · simp [consuladapter.newConfigFile, consuladapter.portOffsetDNS,
      consuladapter.PortOffsetHTTP, consuladapter.portOffsetClientRPC,
      consuladapter.portOffsetSerfLAN, consuladapter.portOffsetSerfWAN,
      consuladapter.portOffsetServerRPC, consuladapter.PortOffsetLength]
  · simp [consuladapter.newConfigFile, consuladapter.joinAddresses,
      consuladapter.portOffsetSerfLAN, consuladapter.PortOffsetLength, Nat.mul_comm]

/-- C9: on all common inputs, `consulrunner.newConfigFile` agrees
field-for-field with `consuladapter.newConfigFile` on every shared
field, differing only by additionally setting `SessionTTL` to the
string rendering of its extra `sessionTTL` argument. -/
theorem consulrunner_newConfigFile_refines
    (durationString : Int → String) (dataDir nodeName : String)
    (p i n : Nat) (sessionTTL : Int) :
    (consulrunner.newConfigFile durationString dataDir nodeName p i n sessionTTL).shared
      = consuladapter.newConfigFile dataDir nodeName p i n ∧
    (consulrunner.newConfigFile durationString dataDir nodeName p i n sessionTTL).SessionTTL
      = durationString sessionTTL :=
  ⟨rfl, rfl⟩

/-- C10: the addresses a ClusterRunner advertises agree with the ports
its config files assign: for `i < n` the `i`-th URL of
`ConsulCluster()` uses port `p + 6*i + 1`, exactly the "http" port
`newConfigFile` assigns to node `i`; and `Address()` is "127.0.0.1:"
followed by `p + 1`, node 0's http port. -/
theorem consulCluster_addresses_match_config
    (dataDir nodeName scheme : String) (p n i : Nat) (h : i < n) :
    (consuladapter.ClusterRunner.consulClusterURLs scheme p n)[i]?
      = some (scheme ++ "://127.0.0.1:" ++ toString (p + 6 * i + 1)) ∧
    (consuladapter.newConfigFile dataDir nodeName p i n).port "http" = some (p + 6 * i + 1) ∧
    consuladapter.ClusterRunner.Address p = "127.0.0.1:" ++ toString (p + 1) ∧
    (consuladapter.newConfigFile dataDir nodeName p 0 n).port "http" = some (p + 1) := by
  refine ⟨?_, ?_, rfl, rfl⟩
  · simp [consuladapter.ClusterRunner.consulClusterURLs, List.getElem?_map,
      List.getElem?_range, h, consuladapter.PortOffsetHTTP,
      consuladapter.PortOffsetLength, Nat.mul_comm]
  · rfl

/-- Witness for C10 at `p = 8500`, `n = 2`, `i = 1`. -/
theorem consulCluster_addresses_match_config_witness :
    (consuladapter.ClusterRunner.consulClusterURLs "http" 8500 2)[1]?
      = some ("http" ++ "://127.0.0.1:" ++ toString (8500 + 6 * 1 + 1)) ∧
    (consuladapter.newConfigFile "d" "node" 8500 1 2).port "http" = some (8500 + 6 * 1 + 1) ∧
    consuladapter.ClusterRunner.Address 8500 = "127.0.0.1:" ++ toString (8500 + 1) ∧
    (consuladapter.newConfigFile "d" "node" 8500 0 2).port "http" = some (8500 + 1) :=
  consulCluster_addresses_match_config "d" "node" "http" 8500 2 1 (by decide)

namespace consuladapter

/-- Modelled from the spec: the missing `session.go` error kinds of
spec section 7 (`BackendUnavailable`, `BackendRejected`,
`SessionNotFound`, `SessionInvalid`, `LockHeldByOther`). -/
inductive SessionError where
  | backendUnavailable
  | backendRejected
  | sessionNotFound
  | sessionInvalid
  | lockHeldByOther
deriving DecidableEq

/-- Modelled from the spec: one lease record in the backend's session
list, tagged with the caller-supplied name and TTL (spec section 4.1:
"requests a new lease from the backend tagged with name and ttl"). -/
structure BackendSession where
  sid : Nat
  sname : String
  sttl : Nat
deriving DecidableEq

/-- Modelled from the spec: the coordination backend as seen through
the Backend Client Facade (spec section 6), together with the call log
of the recording test double for `Manager.Destroy` (spec section 9,
"a hand-rolled fake counting calls").  `locks` holds conditional-write
entries as (key, value, owning session id); `nextId` generates fresh
opaque lease handles; `reachable` is whether the backend is up. -/
structure Backend where
  reachable : Bool
  sessions : List BackendSession
  locks : List (String × String × Nat)
  nextId : Nat
  destroyCalls : List Nat
deriving DecidableEq

/-- The ids in the backend's session list. -/
def Backend.sessionIds (b : Backend) : List Nat :=
  b.sessions.map (fun e => e.sid)

/-- The live session owning `key`, if any. -/
def Backend.lockOwner (b : Backend) (key : String) : Option Nat :=
  (b.locks.find? (fun l => l.1 = key)).map (fun l => l.2.2)

/-- Modelled from the spec (section 4.1): `Manager.Create` requests a
new lease; fails with `BackendUnavailable` if the backend cannot be
reached. -/
def Manager.Create (b : Backend) (name : String) (ttl : Nat) :
    Backend × Except SessionError Nat :=
  if b.reachable then
    ({ b with sessions := b.sessions ++ [⟨b.nextId, name, ttl⟩],
              nextId := b.nextId + 1 },
     Except.ok b.nextId)
  else (b, Except.error SessionError.backendUnavailable)

/-- Modelled from the spec (section 4.1): `Manager.Destroy` releases
the lease (idempotent from the backend's perspective: destroying an
already-gone session is not an error) and, with it, the locks it owns;
the recording double logs every call in `destroyCalls`. -/
def Manager.Destroy (b : Backend) (sid : Nat) :
    Backend × Except SessionError Unit :=
  if b.reachable then
    ({ b with sessions := b.sessions.filter (fun e => e.sid ≠ sid),
              locks := b.locks.filter (fun l => l.2.2 ≠ sid),
              destroyCalls := b.destroyCalls ++ [sid] },
     Except.ok ())
  else
    ({ b with destroyCalls := b.destroyCalls ++ [sid] },
     Except.error SessionError.backendUnavailable)

/-- Modelled from the spec (section 4.2): the three Session states. -/
inductive SessionState where
  | active
  | invalidated
  | destroyed
deriving DecidableEq

/-- Modelled from the spec (section 3): the Session data model.
`id = none` is the Go empty string (no lease); `errorSignal` is the
list of values delivered so far on the single-slot error channel, and
`errorSent` is the at-most-once guard of spec section 5. -/
structure Session where
  sname : String
  sttl : Nat
  id : Option Nat
  state : SessionState
  errorSent : Bool
  errorSignal : List (Option SessionError)
deriving DecidableEq

/-- Modelled from the spec (sections 5 and 9): the non-blocking
at-most-once send on the error channel; a second attempted send is
suppressed rather than performed. -/
def Session.sendOnce (s : Session) (v : Option SessionError) : Session :=
  if s.errorSent then s
  else { s with errorSent := true, errorSignal := s.errorSignal ++ [v] }

/-- Modelled from the spec (section 4.2, construction to active):
attempts `Manager.Create`; on failure construction still succeeds with
an empty lease ID (the monitor keeps retrying in the background). -/
def newSession (name : String) (ttl : Nat) (b : Backend) : Backend × Session :=
  match Manager.Create b name ttl with
  | (b1, Except.ok sid) =>
      (b1, { sname := name, sttl := ttl, id := some sid,
             state := SessionState.active, errorSent := false, errorSignal := [] })
  | (b1, Except.error _) =>
      (b1, { sname := name, sttl := ttl, id := none,
             state := SessionState.active, errorSent := false, errorSignal := [] })

/-- Modelled from the spec: `NewSession` as the caller sees it, with
the Go error slot; per the spec, construction never fails merely
because the backend is down, so the result is always `Except.ok`. -/
def NewSession (name : String) (ttl : Nat) (b : Backend) :
    Backend × Except SessionError Session :=
  ((newSession name ttl b).1, Except.ok (newSession name ttl b).2)

/-- Modelled from the spec (section 4.2, any state to destroyed):
best-effort `Manager.Destroy` (errors swallowed), clears the lease ID,
and — if not already sent — delivers a nil value on the error channel.
Idempotent: a no-op on an already-destroyed Session. -/
def Session.Destroy (b : Backend) (s : Session) : Backend × Session :=
  match s.state with
  | SessionState.destroyed => (b, s)
  | _ =>
      let b1 := match s.id with
        | some sid => (Manager.Destroy b sid).1
        | none => b
      (b1, Session.sendOnce { s with state := SessionState.destroyed, id := none } none)

/-- Modelled from the spec (section 4.2, any state to active):
destroys the current lease if one exists (same best-effort semantics
as `Destroy`), then performs the construction sequence again,
returning the same Session object re-armed with a new ID, or the error
if the synchronous creation step itself fails. -/
def Session.Recreate (b : Backend) (s : Session) :
    Backend × Except SessionError Session :=
  let b1 := match s.id with
    | some sid => (Manager.Destroy b sid).1
    | none => b
  match Manager.Create b1 s.sname s.sttl with
  | (b2, Except.ok sid) =>
      (b2, Except.ok { s with id := some sid, state := SessionState.active })
  | (b2, Except.error e) => (b2, Except.error e)

/-- The Session's live lease ID: its `id` while `active`, and none in
state `invalidated`/`destroyed` (spec section 4.3). -/
def Session.liveLeaseId (s : Session) : Option Nat :=
  match s.state with
  | SessionState.active => s.id
  | _ => none

/-- Modelled from the spec (section 4.3): a single-attempt conditional
write of `value` at `key` conditioned on the Session's lease;
`SessionInvalid` without a live lease ID, `BackendUnavailable` on
transport failure, `LockHeldByOther` when the write is rejected
because a different live session owns the key; no internal retry. -/
def Session.AcquireLock (b : Backend) (s : Session) (key : String) (value : String) :
    Backend × Except SessionError Unit :=
  match Session.liveLeaseId s with
  | none => (b, Except.error SessionError.sessionInvalid)
  | some sid =>
      if b.reachable then
        match Backend.lockOwner b key with
        | some owner =>
            if owner ≠ sid ∧ owner ∈ Backend.sessionIds b then
              (b, Except.error SessionError.lockHeldByOther)
            else
              ({ b with locks := (key, value, sid) :: b.locks.filter (fun l => l.1 ≠ key) },
               Except.ok ())
        | none =>
            ({ b with locks := (key, value, sid) :: b.locks.filter (fun l => l.1 ≠ key) },
             Except.ok ())
      else (b, Except.error SessionError.backendUnavailable)

/-- Modelled from the spec (section 4.2, active to invalidated): the
monitor detected the lease is gone; sends the triggering error on the
channel exactly once and stops renewing. -/
def Session.monitorInvalidate (s : Session) (e : Option SessionError) : Session :=
  match s.state with
  | SessionState.active =>
      Session.sendOnce { s with state := SessionState.invalidated } e
  | _ => s

/-- Modelled from the spec (section 4.2): while `active` with an empty
lease ID, the monitor retries creation in the background until it
succeeds or the Session is destroyed. -/
def Session.monitorRetryCreate (b : Backend) (s : Session) : Backend × Session :=
  match s.state, s.id with
  | SessionState.active, none =>
      (match Manager.Create b s.sname s.sttl with
       | (b1, Except.ok sid) => (b1, { s with id := some sid })
       | (b1, Except.error _) => (b1, s))
  | _, _ => (b, s)

/-- Modelled from the spec: the events that can touch a Session after
construction — caller calls (`Destroy`, `Recreate`, `AcquireLock`) and
monitor actions (invalidation report, creation retry). -/
inductive SessionOp where
  | destroyOp
  | recreateOp
  | invalidateOp (e : Option SessionError)
  | retryCreateOp
  | acquireOp (key : String) (value : String)

/-- One event applied to a backend/Session pair. -/
def sessionStep (p : Backend × Session) (op : SessionOp) : Backend × Session :=
  match op with
  | SessionOp.destroyOp => Session.Destroy p.1 p.2
  | SessionOp.recreateOp =>
      (match Session.Recreate p.1 p.2 with
       | (b1, Except.ok s1) => (b1, s1)
       | (b1, Except.error _) => (b1, p.2))
  | SessionOp.invalidateOp e => (p.1, Session.monitorInvalidate p.2 e)
  | SessionOp.retryCreateOp => Session.monitorRetryCreate p.1 p.2
  | SessionOp.acquireOp k v => ((Session.AcquireLock p.1 p.2 k v).1, p.2)

/-- A whole event trace applied in order. -/
def sessionRun (p : Backend × Session) (ops : List SessionOp) : Backend × Session :=
  ops.foldl sessionStep p

end consuladapter

namespace consuladapter

/-- Well-formedness of the error channel: at most one value delivered,
and none before the at-most-once guard is set. -/
def errChannelOk (s : Session) : Prop :=
  s.errorSignal.length ≤ 1 ∧ (s.errorSent = false → s.errorSignal = [])

lemma errChannelOk_sendOnce {s : Session} {v : Option SessionError}
    (h : errChannelOk s) : errChannelOk (Session.sendOnce s v) := by
  obtain ⟨h1, h2⟩ := h
  by_cases he : s.errorSent = true
  · unfold Session.sendOnce
    rw [if_pos he]
    exact ⟨h1, h2⟩
  · have he2 : s.errorSent = false := by simpa using he
    have hz : s.errorSignal = [] := h2 he2
    simp [Session.sendOnce, errChannelOk, he2, hz]

lemma errChannelOk_recreate (b : Backend) (s : Session)
    (h : errChannelOk s) :
    ∀ b2 s2, Session.Recreate b s = (b2, Except.ok s2) → errChannelOk s2 := by
  intro b2 s2 hEq
  simp only [Session.Recreate] at hEq
  split at hEq
  · obtain ⟨-, hres⟩ := Prod.mk.injEq .. ▸ hEq
    obtain rfl : _ = s2 := by injection hres
    exact h
  · obtain ⟨-, hres⟩ := Prod.mk.injEq .. ▸ hEq
    exact absurd hres (by simp)

lemma errChannelOk_step (p : Backend × Session) (op : SessionOp)
    (h : errChannelOk p.2) : errChannelOk (sessionStep p op).2 := by
  obtain ⟨b, s⟩ := p
  cases op with
  | destroyOp =>
      cases hs : s.state <;>
        simp only [sessionStep, Session.Destroy, hs] <;>
        first
          | exact h
          | exact errChannelOk_sendOnce h
  | recreateOp =>
      simp only [sessionStep]
      rcases hR : Session.Recreate b s with ⟨b1, r⟩
      cases r with
      | ok s1 => exact errChannelOk_recreate b s h b1 s1 hR
      | error e => exact h
  | invalidateOp e =>
      cases hs : s.state <;>
        simp only [sessionStep, Session.monitorInvalidate, hs] <;>
        first
          | exact h
          | exact errChannelOk_sendOnce h
  | retryCreateOp =>
      cases hs : s.state <;> cases hid : s.id <;>
        simp only [sessionStep, Session.monitorRetryCreate, hs, hid] <;>
        first
          | exact h
          | cases hr : b.reachable <;>
              simp only [Manager.Create, hr, Bool.false_eq_true, if_true, if_false] <;>
              exact h
  | acquireOp k v => exact h

lemma errChannelOk_run (p : Backend × Session) (ops : List SessionOp)
    (h : errChannelOk p.2) : errChannelOk (sessionRun p ops).2 := by
  induction ops generalizing p with
  | nil => simpa [sessionRun] using h
  | cons op rest ih =>
      simp only [sessionRun, List.foldl_cons]
      exact ih (sessionStep p op) (errChannelOk_step p op h)

lemma errChannelOk_newSession (name : String) (ttl : Nat) (b : Backend) :
    errChannelOk (newSession name ttl b).2 := by
  cases hr : b.reachable <;>
    simp [newSession, Manager.Create, hr, errChannelOk]

/-- C3: over any trace of caller calls and monitor actions after
construction, the error channel of a Session delivers at most one
value; and a second attempted send (once the guard is set) is
suppressed rather than performed. -/
theorem errorSignal_at_most_once (name : String) (ttl : Nat) (b : Backend)
    (ops : List SessionOp) :
    (sessionRun (newSession name ttl b) ops).2.errorSignal.length ≤ 1 ∧
    (∀ (s : Session) (v : Option SessionError),
      Session.sendOnce { s with errorSent := true } v
        = { s with errorSent := true }) := by
  constructor
  · exact (errChannelOk_run _ ops (errChannelOk_newSession name ttl b)).1
  · intro s v
    simp [Session.sendOnce]

/-- C1: for every (name, ttl), `NewSession` returns a Session with no
error, even when the backend is unreachable at call time; in that case
the Session starts active with an empty lease ID. -/
theorem NewSession_never_fails (name : String) (ttl : Nat) (b : Backend) :
    (NewSession name ttl b).2 = Except.ok (newSession name ttl b).2 ∧
    (b.reachable = false →
      (newSession name ttl b).2.id = none ∧
      (newSession name ttl b).2.state = SessionState.active) := by
  refine ⟨rfl, fun hr => ?_⟩
  simp [newSession, Manager.Create, hr]

/-- Fixture: a reachable backend with no sessions. -/
def bLiveW : Backend := ⟨true, [], [], 0, []⟩

/-- Fixture: an unreachable backend. -/
def bDownW : Backend := ⟨false, [], [], 0, []⟩

/-- Witness for C1 against a down backend. -/
theorem NewSession_never_fails_witness :
    (NewSession "a-session" 20 bDownW).2
      = Except.ok (newSession "a-session" 20 bDownW).2 ∧
    ((newSession "a-session" 20 bDownW).2.id = none ∧
      (newSession "a-session" 20 bDownW).2.state = SessionState.active) :=
  ⟨(NewSession_never_fails "a-session" 20 bDownW).1,
   (NewSession_never_fails "a-session" 20 bDownW).2 rfl⟩

/-- C2: `Destroy` is idempotent: on an already-destroyed Session it is
a no-op, and a second `Destroy` leaves backend and Session (state,
lease ID, error channel) exactly as the first left them. -/
theorem Destroy_idempotent (b : Backend) (s : Session) :
    (s.state = SessionState.destroyed → Session.Destroy b s = (b, s)) ∧
    Session.Destroy (Session.Destroy b s).1 (Session.Destroy b s).2
      = Session.Destroy b s := by
  constructor
  · intro hs
    simp [Session.Destroy, hs]
  · cases hs : s.state <;> cases he : s.errorSent <;> cases hid : s.id <;>
      simp [Session.Destroy, Session.sendOnce, hs, he, hid]

/-- Fixture: an already-destroyed Session. -/
def sDestroyedW : Session :=
  ⟨"a-session", 20, none, SessionState.destroyed, true, [none]⟩

/-- Witness for C2 on an already-destroyed Session. -/
theorem Destroy_idempotent_witness :
    Session.Destroy bLiveW sDestroyedW = (bLiveW, sDestroyedW) ∧
    Session.Destroy (Session.Destroy bLiveW sDestroyedW).1
        (Session.Destroy bLiveW sDestroyedW).2
      = Session.Destroy bLiveW sDestroyedW :=
  ⟨(Destroy_idempotent bLiveW sDestroyedW).1 rfl,
   (Destroy_idempotent bLiveW sDestroyedW).2⟩

end consuladapter

namespace consuladapter

/-- C4: against a live backend, a fresh Session has a non-empty lease
ID, `AcquireLock` on a free key succeeds, and a subsequent `Destroy`
calls `Manager.Destroy` exactly once with that Session's ID, removes
the ID from the backend's session list, and delivers nil on the error
channel. -/
theorem session_destroy_flow (name : String) (ttl : Nat) (key value : String)
    (b : Backend) (hr : b.reachable = true)
    (hk : Backend.lockOwner b key = none) (hd : b.destroyCalls = []) :
    (newSession name ttl b).2.id = some b.nextId ∧
    (Session.AcquireLock (newSession name ttl b).1 (newSession name ttl b).2
        key value).2 = Except.ok () ∧
    (Session.Destroy
        (Session.AcquireLock (newSession name ttl b).1 (newSession name ttl b).2
          key value).1
        (newSession name ttl b).2).1.destroyCalls = [b.nextId] ∧
    b.nextId ∉ Backend.sessionIds
      (Session.Destroy
        (Session.AcquireLock (newSession name ttl b).1 (newSession name ttl b).2
          key value).1
        (newSession name ttl b).2).1 ∧
    (Session.Destroy
        (Session.AcquireLock (newSession name ttl b).1 (newSession name ttl b).2
          key value).1
        (newSession name ttl b).2).2.errorSignal = [none] := by
  simp only [Backend.lockOwner] at hk
  refine ⟨?_, ?_, ?_, ?_, ?_⟩ <;>
    simp [newSession, Manager.Create, Manager.Destroy, Session.AcquireLock,
      Session.Destroy, Session.sendOnce, Session.liveLeaseId,
      Backend.lockOwner, Backend.sessionIds, hr, hd, hk]

end consuladapter

namespace consuladapter

/-- C5: `Recreate` after `Destroy` re-arms the same Session with a
fresh lease whose ID differs from the original and exists in the
backend's session list; if the synchronous creation step fails,
`Recreate` returns that error instead of retrying. -/
theorem recreate_after_destroy (b : Backend) (s : Session) (i0 : Nat)
    (hid : s.id = some i0) (hlt : i0 < b.nextId) :
    (b.reachable = true →
      (Session.Recreate (Session.Destroy b s).1 (Session.Destroy b s).2).2
        = Except.ok { (Session.Destroy b s).2 with
                        id := some b.nextId, state := SessionState.active } ∧
      b.nextId ≠ i0 ∧
      b.nextId ∈ Backend.sessionIds
        (Session.Recreate (Session.Destroy b s).1 (Session.Destroy b s).2).1) ∧
    (b.reachable = false →
      (Session.Recreate (Session.Destroy b s).1 (Session.Destroy b s).2).2
        = Except.error SessionError.backendUnavailable) := by
  constructor
  · intro hr
    refine ⟨?_, by omega, ?_⟩ <;>
      cases hs : s.state <;> cases he : s.errorSent <;>
        simp [Session.Destroy, Session.Recreate, Manager.Create, Manager.Destroy,
          Session.sendOnce, Backend.sessionIds, hid, hr, hs, he]
  · intro hr
    cases hs : s.state <;> cases he : s.errorSent <;>
      simp [Session.Destroy, Session.Recreate, Manager.Create, Manager.Destroy,
        Session.sendOnce, hid, hr, hs, he]

/-- C6: `Recreate` on a Session holding a live lease destroys the
current lease first (best-effort, via `Manager.Destroy`), so the prior
lease ID no longer appears in the backend's session list after
`Recreate` returns with the fresh lease. -/
theorem recreate_destroys_current (b : Backend) (s : Session) (i0 : Nat)
    (hid : s.id = some i0) (hlt : i0 < b.nextId) (hr : b.reachable = true) :
    (Session.Recreate b s).1.destroyCalls = b.destroyCalls ++ [i0] ∧
    i0 ∉ Backend.sessionIds (Session.Recreate b s).1 ∧
    (Session.Recreate b s).2
      = Except.ok { s with id := some b.nextId, state := SessionState.active } := by
  refine ⟨?_, ?_, ?_⟩ <;>
    simp [Session.Recreate, Manager.Create, Manager.Destroy,
      Backend.sessionIds, hid, hr]
  omega

/-- C7: `AcquireLock` is a single attempt whose outcome is determined
by: `SessionInvalid` without a live lease ID, `BackendUnavailable` on
transport failure, `LockHeldByOther` when the conditional write is
rejected because another live session holds the key, and success when
the conditional write goes through. -/
theorem acquireLock_spec (b : Backend) (s : Session) (key value : String) :
    (Session.liveLeaseId s = none →
      Session.AcquireLock b s key value
        = (b, Except.error SessionError.sessionInvalid)) ∧
    (∀ sid, Session.liveLeaseId s = some sid → b.reachable = false →
      Session.AcquireLock b s key value
        = (b, Except.error SessionError.backendUnavailable)) ∧
    (∀ sid owner, Session.liveLeaseId s = some sid → b.reachable = true →
      Backend.lockOwner b key = some owner → owner ≠ sid →
      owner ∈ Backend.sessionIds b →
      Session.AcquireLock b s key value
        = (b, Except.error SessionError.lockHeldByOther)) ∧
    (∀ sid, Session.liveLeaseId s = some sid → b.reachable = true →
      (∀ owner, Backend.lockOwner b key = some owner →
        owner = sid ∨ owner ∉ Backend.sessionIds b) →
      (Session.AcquireLock b s key value).2 = Except.ok ()) := by
  refine ⟨?_, ?_, ?_, ?_⟩
  · intro h
    simp [Session.AcquireLock, h]
  · intro sid h hr
    simp [Session.AcquireLock, h, hr]
  · intro sid owner h hr hown hne hmem
    simp [Session.AcquireLock, h, hr, hown, hne, hmem]
  · intro sid h hr hfree
    rcases hown : Backend.lockOwner b key with _ | owner
    · simp [Session.AcquireLock, h, hr, hown]
    · rcases hfree owner hown with rfl | hnm
      · simp [Session.AcquireLock, h, hr, hown]
      · simp [Session.AcquireLock, h, hr, hown, hnm]

end consuladapter

namespace consuladapter

/-- Witness for C4: the destroy flow on a live empty backend. -/
theorem session_destroy_flow_witness :
    (newSession "a-session" 20 bLiveW).2.id = some bLiveW.nextId ∧
    (Session.AcquireLock (newSession "a-session" 20 bLiveW).1
        (newSession "a-session" 20 bLiveW).2 "foo" "").2 = Except.ok () ∧
    (Session.Destroy
        (Session.AcquireLock (newSession "a-session" 20 bLiveW).1
          (newSession "a-session" 20 bLiveW).2 "foo" "").1
        (newSession "a-session" 20 bLiveW).2).1.destroyCalls = [bLiveW.nextId] ∧
    bLiveW.nextId ∉ Backend.sessionIds
      (Session.Destroy
        (Session.AcquireLock (newSession "a-session" 20 bLiveW).1
          (newSession "a-session" 20 bLiveW).2 "foo" "").1
        (newSession "a-session" 20 bLiveW).2).1 ∧
    (Session.Destroy
        (Session.AcquireLock (newSession "a-session" 20 bLiveW).1
          (newSession "a-session" 20 bLiveW).2 "foo" "").1
        (newSession "a-session" 20 bLiveW).2).2.errorSignal = [none] :=
  session_destroy_flow "a-session" 20 "foo" "" bLiveW rfl rfl rfl

/-- Fixture: a reachable backend holding one lease with id 0. -/
def bSessW : Backend := ⟨true, [⟨0, "a-session", 20⟩], [], 1, []⟩

/-- Fixture: an active Session holding lease 0. -/
def sLiveW : Session :=
  ⟨"a-session", 20, some 0, SessionState.active, false, []⟩

/-- Witness for C5: destroy then recreate on the one-lease backend. -/
theorem recreate_after_destroy_witness :
    (Session.Recreate (Session.Destroy bSessW sLiveW).1
        (Session.Destroy bSessW sLiveW).2).2
      = Except.ok { (Session.Destroy bSessW sLiveW).2 with
                      id := some bSessW.nextId, state := SessionState.active } ∧
    bSessW.nextId ≠ 0 ∧
    bSessW.nextId ∈ Backend.sessionIds
      (Session.Recreate (Session.Destroy bSessW sLiveW).1
        (Session.Destroy bSessW sLiveW).2).1 :=
  (recreate_after_destroy bSessW sLiveW 0 rfl (by decide)).1 rfl

/-- Witness for C6: recreate while holding live lease 0. -/
theorem recreate_destroys_current_witness :
    (Session.Recreate bSessW sLiveW).1.destroyCalls = bSessW.destroyCalls ++ [0] ∧
    0 ∉ Backend.sessionIds (Session.Recreate bSessW sLiveW).1 ∧
    (Session.Recreate bSessW sLiveW).2
      = Except.ok { sLiveW with
          id := some bSessW.nextId, state := SessionState.active } :=
  recreate_destroys_current bSessW sLiveW 0 rfl (by decide) rfl

/-- Fixture: a backend where live session 1 holds the lock at "k". -/
def bHeldW : Backend :=
  ⟨true, [⟨0, "a-session", 20⟩, ⟨1, "b-session", 20⟩], [("k", "x", 1)], 2, []⟩

/-- Witness for C7: all four `AcquireLock` outcomes at concrete
inputs. -/
theorem acquireLock_spec_witness :
    Session.AcquireLock bLiveW sDestroyedW "k" "v"
      = (bLiveW, Except.error SessionError.sessionInvalid) ∧
    Session.AcquireLock bDownW sLiveW "k" "v"
      = (bDownW, Except.error SessionError.backendUnavailable) ∧
    Session.AcquireLock bHeldW sLiveW "k" "v"
      = (bHeldW, Except.error SessionError.lockHeldByOther) ∧
    (Session.AcquireLock bSessW sLiveW "k" "v").2 = Except.ok () :=
  ⟨(acquireLock_spec bLiveW sDestroyedW "k" "v").1 rfl,
   (acquireLock_spec bDownW sLiveW "k" "v").2.1 0 rfl rfl,
   (acquireLock_spec bHeldW sLiveW "k" "v").2.2.1 0 1 rfl rfl rfl
     (by decide) (by decide),
   (acquireLock_spec bSessW sLiveW "k" "v").2.2.2 0 rfl rfl
     (by intro owner h; simp [Backend.lockOwner, bSessW] at h)⟩

end consuladapter
